import Mathlib

/-!
Shallow embedding of the tc_node_api peer node (NestJS/TypeScript) core:
the seed-node connection manager (src/p2p/p2p.service.ts) and the
validator directory / broadcast engine (validators.service.ts).

Network effects are abstracted: each HTTP call takes its outcome as an
explicit argument (an `HttpResult` for the seed-node calls, a
`DispatchResult` per peer for broadcasts), and the current wall-clock time
is passed as a natural number where the source reads `new Date()`.
Timer handles (`NodeJS.Timeout` refs) are modelled as booleans recording
whether the corresponding interval is armed.
-/

/-- Registration status enum from src/p2p/dto/seed-node.dto.ts. -/
inductive RegistrationStatus where
  | NOT_REGISTERED
  | REGISTERING
  | REGISTERED
  | FAILED
deriving Repr, DecidableEq

/-- Outcome of one HTTP request issued by the P2pService: either a response
with the given status code, or a transport error (timeout, connection
refused, DNS failure - anything that makes axios reject). -/
inductive HttpResult where
  | ok (status : Nat)
  | err
deriving Repr, DecidableEq

/-- Mutable fields of P2pService (src/p2p/p2p.service.ts, fields at lines
13-18).  `reconnectActive` models `reconnectIntervalRef != null`. -/
structure P2pState where
  connected : Bool
  registrationStatus : RegistrationStatus
  lastPingTime : Option Nat
  reconnectAttempts : Nat
  reconnectActive : Bool
deriving Repr, DecidableEq

/-- Initial field values of P2pService (lines 13-18). -/
def initState : P2pState :=
  { connected := false
  , registrationStatus := RegistrationStatus.NOT_REGISTERED
  , lastPingTime := none
  , reconnectAttempts := 0
  , reconnectActive := false }

/-- startReconnectInterval (lines 70-92): clears any existing interval and
arms a new one.  The tick body itself is modelled by `reconnectTick`. -/
def startReconnectInterval (s : P2pState) : P2pState :=
  { s with reconnectActive := true }

/-- stopReconnectInterval (lines 94-99). -/
def stopReconnectInterval (s : P2pState) : P2pState :=
  { s with reconnectActive := false }

/-- handleConnectionFailure (lines 122-128): sets connected to false and,
if no reconnect interval is armed, arms one. -/
def handleConnectionFailure (s : P2pState) : P2pState :=
  let s1 := { s with connected := false }
  if s1.reconnectActive then s1 else startReconnectInterval s1

/-- pingSeedNode (lines 130-164).  Returns the boolean result together with
the updated state.  In the catch branch the source first assigns
`this.connected = false` and only afterwards tests `if (this.connected)`,
so the `handleConnectionFailure` call inside the catch can never run; the
embedding reproduces that order of operations literally. -/
def pingSeedNode (res : HttpResult) (now : Nat) (s : P2pState) :
    Bool × P2pState :=
  match res with
  | HttpResult.ok status =>
      if status = 200 then
        (true, { s with connected := true, lastPingTime := some now })
      else
        (false, { s with connected := false })
  | HttpResult.err =>
      let s1 := { s with connected := false }
      let s2 := if s1.connected then handleConnectionFailure s1 else s1
      (false, s2)

/-- registerWithSeedNode (lines 166-207): sets status to REGISTERING, posts
the node address; 201 and 200 both succeed (REGISTERED), any other status
or a transport error sets FAILED and returns false.  The function catches
every error itself and never throws to its caller. -/
def registerWithSeedNode (res : HttpResult) (s : P2pState) :
    Bool × P2pState :=
  let s0 := { s with registrationStatus := RegistrationStatus.REGISTERING }
  match res with
  | HttpResult.ok status =>
      if status = 201 then
        (true, { s0 with registrationStatus := RegistrationStatus.REGISTERED })
      else if status = 200 then
        (true, { s0 with registrationStatus := RegistrationStatus.REGISTERED })
      else
        (false, { s0 with registrationStatus := RegistrationStatus.FAILED })
  | HttpResult.err =>
      (false, { s0 with registrationStatus := RegistrationStatus.FAILED })

/-- connectToSeedNode (lines 101-120): pings first; on ping failure runs
handleConnectionFailure and returns false.  On ping success it awaits
registerWithSeedNode but discards its boolean result and returns true
unconditionally (line 113-114 of the source).  Since both callees catch
their own errors, the catch branch at lines 115-119 is unreachable. -/
def connectToSeedNode (pres rres : HttpResult) (now : Nat) (s : P2pState) :
    Bool × P2pState :=
  let pr := pingSeedNode pres now s
  if pr.1 = false then
    (false, handleConnectionFailure pr.2)
  else
    (true, (registerWithSeedNode rres pr.2).2)

/-- One tick of the reconnect interval callback (lines 73-89).  The tick
can only fire while the interval is armed, hence the guard on
`reconnectActive`.  The second component records whether the tick called
connectToSeedNode (i.e. made a connection attempt). -/
def reconnectTick (maxR : Nat) (pres rres : HttpResult) (now : Nat)
    (s : P2pState) : P2pState × Bool :=
  if s.reconnectActive = false then (s, false)
  else if maxR ≤ s.reconnectAttempts then
    ({ s with reconnectActive := false }, false)
  else
    let s1 := { s with reconnectAttempts := s.reconnectAttempts + 1 }
    let s2 := (connectToSeedNode pres rres now s1).2
    if s2.connected then
      ({ s2 with reconnectActive := false, reconnectAttempts := 0 }, true)
    else
      (s2, true)

/-- getKnownNodes (lines 209-229): when disconnected it returns [] without
issuing the HTTP request; otherwise the request outcome is `fetch`
(`none` models a transport error, answered with []).  The boolean in the
result records whether the seed node was actually contacted. -/
def getKnownNodes (fetch : Option (List String)) (s : P2pState) :
    List String × Bool :=
  if s.connected = false then ([], false)
  else
    match fetch with
    | some data => (data, true)
    | none => ([], true)

/-- getActiveNodes (lines 231-251): same shape as getKnownNodes, against
the /nodes/active endpoint. -/
def getActiveNodes (fetch : Option (List String)) (s : P2pState) :
    List String × Bool :=
  if s.connected = false then ([], false)
  else
    match fetch with
    | some data => (data, true)
    | none => ([], true)

/-- External entry points that touch the P2pService state: a tick of the
ping interval (lines 56-58), a tick of the reconnect interval (lines
73-89), and a direct connectToSeedNode call (onModuleInit, line 41).
Each event carries the outcome the network produced for its calls. -/
inductive P2pEvent where
  | pingTickEv (res : HttpResult) (now : Nat)
  | reconnectEv (pres rres : HttpResult) (now : Nat)
  | connectEv (pres rres : HttpResult) (now : Nat)
deriving Repr, DecidableEq

/-- State effect of one event. -/
def stepEvent (maxR : Nat) (e : P2pEvent) (s : P2pState) : P2pState :=
  match e with
  | P2pEvent.pingTickEv res now => (pingSeedNode res now s).2
  | P2pEvent.reconnectEv pres rres now => (reconnectTick maxR pres rres now s).1
  | P2pEvent.connectEv pres rres now => (connectToSeedNode pres rres now s).2

/-- Run a chronological list of events from the initial state. -/
def runEvents (maxR : Nat) (evs : List P2pEvent) : P2pState :=
  evs.foldl (fun s e => stepEvent maxR e s) initState

/-- A P2pService state is reachable when some sequence of timer ticks and
connect calls produces it from the initial field values. -/
def Reachable (maxR : Nat) (s : P2pState) : Prop :=
  ∃ evs, runEvents maxR evs = s

/-- Iterated failing reconnect ticks: every tick sees a transport error on
the ping (so connectToSeedNode fails each time). -/
def failTicks (maxR : Nat) : Nat → P2pState → P2pState
  | 0, s => s
  | k + 1, s => failTicks maxR k (reconnectTick maxR HttpResult.err HttpResult.err 0 s).1

/-- Validator record from validators dto (create-validator.dto.ts).
`lastSeen` is an ISO timestamp string in the source, modelled as Nat. -/
structure ValidatorNode where
  address : String
  nodeType : String
  lastSeen : Nat
  isResponding : Bool
  version : Option String
deriving Repr, DecidableEq

/-- Per-peer outcome record (ValidatorResponse in the dto). -/
structure ValidatorResponse where
  success : Bool
  data : Option String
  error : Option String
  timestamp : Nat
  validatorAddress : String
deriving Repr, DecidableEq

/-- What the network does with one dispatched request to one peer: a
successful response, an HTTP-level error, a timeout, or a refused
connection.  In the source all three failure forms reach the same
catchError handler carrying an error message. -/
inductive DispatchResult where
  | ok (data : String)
  | httpError (msg : String)
  | timeout
  | refused
deriving Repr, DecidableEq

/-- Whether a dispatch outcome is a success. -/
def dispatchOk : DispatchResult → Bool
  | DispatchResult.ok _ => true
  | _ => false

/-- Mutable state of ValidatorsService (validators.service.ts):
the cached validator list. -/
structure VState where
  validatorNodes : List ValidatorNode
deriving Repr, DecidableEq

/-- loadValidatorNodes (source lines 64-87): fetches /nodes/active, filters
to nodeType "validator", replaces the cache and returns the new list; on
fetch failure (`none`) the catch returns [] and the cache is untouched. -/
def loadValidatorNodes (fetch : Option (List ValidatorNode)) (s : VState) :
    List ValidatorNode × VState :=
  match fetch with
  | some allNodes =>
      let vs := allNodes.filter (fun node => node.nodeType = "validator")
      (vs, { s with validatorNodes := vs })
  | none => ([], s)

/-- refreshValidatorNodes (lines 456-459): delegates to loadValidatorNodes. -/
def refreshValidatorNodes (fetch : Option (List ValidatorNode)) (s : VState) :
    List ValidatorNode × VState :=
  loadValidatorNodes fetch s

/-- getValidatorNodes (lines 92-94). -/
def getValidatorNodes (s : VState) : List ValidatorNode :=
  s.validatorNodes

/-- getActiveValidatorNodes (lines 99-101). -/
def getActiveValidatorNodes (s : VState) : List ValidatorNode :=
  s.validatorNodes.filter (fun node => node.isResponding)

/-- Effect of one health probe on one validator record
(checkValidatorNodesHealth body, lines 109-120): pingValidator never
throws, so the record gets `isResponding := isHealthy` and, only when
healthy, a fresh `lastSeen`. -/
def healthCheckOne (probe : String → Bool) (now : Nat)
    (node : ValidatorNode) : ValidatorNode :=
  if probe node.address then
    { node with isResponding := true, lastSeen := now }
  else
    { node with isResponding := false }

/-- checkValidatorNodesHealth (lines 106-126): one concurrent probe per
known peer, each applied to its own record; Promise.allSettled waits for
all of them. -/
def checkValidatorNodesHealth (probe : String → Bool) (now : Nat)
    (s : VState) : VState :=
  { s with validatorNodes := s.validatorNodes.map (healthCheckOne probe now) }

/-- One broadcast dispatch to one validator (the body of the map in
sendTransaction, lines 163-200, identical in the batch / critical /
status / mempool variants): every outcome becomes exactly one
ValidatorResponse carrying that validator's address. -/
def dispatchOne (env : String → DispatchResult) (now : Nat)
    (v : ValidatorNode) : ValidatorResponse :=
  match env v.address with
  | DispatchResult.ok d =>
      { success := true, data := some d, error := none
      , timestamp := now, validatorAddress := v.address }
  | DispatchResult.httpError m =>
      { success := false, data := none, error := some m
      , timestamp := now, validatorAddress := v.address }
  | DispatchResult.timeout =>
      { success := false, data := none, error := some "timeout exceeded"
      , timestamp := now, validatorAddress := v.address }
  | DispatchResult.refused =>
      { success := false, data := none, error := some "ECONNREFUSED"
      , timestamp := now, validatorAddress := v.address }

/-- sendTransaction (lines 153-211): empty active set returns []
immediately; otherwise one dispatch per active validator, results
collected by Promise.allSettled in input order.  Since each mapped
promise resolves (its body catches every error), the fulfilled branch of
the allSettled mapping is always taken. -/
def sendTransaction (env : String → DispatchResult) (now : Nat)
    (s : VState) : List ValidatorResponse :=
  let activeValidators := getActiveValidatorNodes s
  if activeValidators.length = 0 then []
  else activeValidators.map (dispatchOne env now)

/-- sendBatchTransactions (lines 216-274): same fan-out, /tx/batch
endpoint, 15s per-call timeout. -/
def sendBatchTransactions (env : String → DispatchResult) (now : Nat)
    (s : VState) : List ValidatorResponse :=
  let activeValidators := getActiveValidatorNodes s
  if activeValidators.length = 0 then []
  else activeValidators.map (dispatchOne env now)

/-- sendCriticalProcess (lines 279-337): same fan-out, /critical endpoint,
20s per-call timeout. -/
def sendCriticalProcess (env : String → DispatchResult) (now : Nat)
    (s : VState) : List ValidatorResponse :=
  let activeValidators := getActiveValidatorNodes s
  if activeValidators.length = 0 then []
  else activeValidators.map (dispatchOne env now)

/-- getBlockchainStatus (lines 342-394): same fan-out, GET status
endpoint. -/
def getBlockchainStatus (env : String → DispatchResult) (now : Nat)
    (s : VState) : List ValidatorResponse :=
  let activeValidators := getActiveValidatorNodes s
  if activeValidators.length = 0 then []
  else activeValidators.map (dispatchOne env now)

/-- getMempoolStatus (lines 399-451): same fan-out, GET mempool
endpoint. -/
def getMempoolStatus (env : String → DispatchResult) (now : Nat)
    (s : VState) : List ValidatorResponse :=
  let activeValidators := getActiveValidatorNodes s
  if activeValidators.length = 0 then []
  else activeValidators.map (dispatchOne env now)

/-- A validator record that is down; used as the getD default in indexed
statements about the health sweep. -/
def defaultNode : ValidatorNode :=
  { address := "", nodeType := "validator", lastSeen := 0
  , isResponding := false, version := none }

/-- Decidable test for a registration outcome the source treats as a
failure: any response status other than 201 or 200, or a transport
error. -/
def regFailure : HttpResult → Bool
  | HttpResult.ok status => decide (status ≠ 201) && decide (status ≠ 200)
  | HttpResult.err => true

/-- A P2pService state that is connected with no reconnect interval armed:
the steady state after a successful connect. -/
def connectedIdleState : P2pState :=
  { connected := true, registrationStatus := RegistrationStatus.REGISTERED
  , lastPingTime := some 0, reconnectAttempts := 0, reconnectActive := false }

/-- Claim C5: a load (or refresh) whose fetch fails leaves the cached
validator collection completely unchanged and returns an empty list to
the caller. -/
theorem load_failure_leaves_cache_unchanged (s : VState) :
    loadValidatorNodes none s = ([], s) ∧
    refreshValidatorNodes none s = ([], s) :=
  ⟨rfl, rfl⟩

/-- Claim C9: the active peer list is a sublist (subset in iteration
order) of the full collection, and membership is exactly the records
whose isResponding flag is true. -/
theorem active_validators_exactly_responding (s : VState) :
    (getActiveValidatorNodes s).Sublist (getValidatorNodes s) ∧
    ∀ v : ValidatorNode,
      v ∈ getActiveValidatorNodes s ↔
        v ∈ getValidatorNodes s ∧ v.isResponding = true := by
  refine ⟨List.filter_sublist _, fun v => ?_⟩
  simp [getActiveValidatorNodes, getValidatorNodes]

/-- Claim C8: every broadcast operation invoked on an empty active-peer
set returns an empty outcome list immediately, so the aggregate success
count and total are both zero. -/
theorem empty_active_set_broadcast (env : String → DispatchResult)
    (now : Nat) (s : VState) (h : getActiveValidatorNodes s = []) :
    sendTransaction env now s = [] ∧
    sendBatchTransactions env now s = [] ∧
    sendCriticalProcess env now s = [] ∧
    getBlockchainStatus env now s = [] ∧
    getMempoolStatus env now s = [] ∧
    (sendTransaction env now s).countP (fun r => r.success) = 0 ∧
    (sendTransaction env now s).length = 0 := by
  simp [sendTransaction, sendBatchTransactions, sendCriticalProcess,
        getBlockchainStatus, getMempoolStatus, h]

/-- Witness for C8 at a directory holding one non-responding validator. -/
theorem empty_active_set_broadcast_witness :
    getActiveValidatorNodes (VState.mk
      [{ address := "10.0.0.9:3101", nodeType := "validator", lastSeen := 0
       , isResponding := false, version := none }]) = [] ∧
    (sendTransaction (fun _ => DispatchResult.ok "ack") 7 (VState.mk
      [{ address := "10.0.0.9:3101", nodeType := "validator", lastSeen := 0
       , isResponding := false, version := none }]) = [] ∧
     sendBatchTransactions (fun _ => DispatchResult.ok "ack") 7 (VState.mk
      [{ address := "10.0.0.9:3101", nodeType := "validator", lastSeen := 0
       , isResponding := false, version := none }]) = [] ∧
     sendCriticalProcess (fun _ => DispatchResult.ok "ack") 7 (VState.mk
      [{ address := "10.0.0.9:3101", nodeType := "validator", lastSeen := 0
       , isResponding := false, version := none }]) = [] ∧
     getBlockchainStatus (fun _ => DispatchResult.ok "ack") 7 (VState.mk
      [{ address := "10.0.0.9:3101", nodeType := "validator", lastSeen := 0
       , isResponding := false, version := none }]) = [] ∧
     getMempoolStatus (fun _ => DispatchResult.ok "ack") 7 (VState.mk
      [{ address := "10.0.0.9:3101", nodeType := "validator", lastSeen := 0
       , isResponding := false, version := none }]) = [] ∧
     (sendTransaction (fun _ => DispatchResult.ok "ack") 7 (VState.mk
      [{ address := "10.0.0.9:3101", nodeType := "validator", lastSeen := 0
       , isResponding := false, version := none }])).countP (fun r => r.success) = 0 ∧
     (sendTransaction (fun _ => DispatchResult.ok "ack") 7 (VState.mk
      [{ address := "10.0.0.9:3101", nodeType := "validator", lastSeen := 0
       , isResponding := false, version := none }])).length = 0) :=
  ⟨by decide, empty_active_set_broadcast (fun _ => DispatchResult.ok "ack") 7 _ (by decide)⟩

/-- Claim C10: while disconnected, both node-list accessors answer with an
empty list without contacting the seed node, which makes the reply
indistinguishable from a connected node whose seed reports zero nodes. -/
theorem disconnected_node_lists_empty (s : P2pState)
    (fetch : Option (List String)) (h : s.connected = false) :
    getKnownNodes fetch s = ([], false) ∧
    getActiveNodes fetch s = ([], false) ∧
    (getKnownNodes fetch s).1 =
      (getKnownNodes (some []) { s with connected := true }).1 ∧
    (getActiveNodes fetch s).1 =
      (getActiveNodes (some []) { s with connected := true }).1 := by
  simp [getKnownNodes, getActiveNodes, h]

/-- Witness for C10 at the initial (disconnected) state. -/
theorem disconnected_node_lists_empty_witness :
    initState.connected = false ∧
    (getKnownNodes (some ["n1:3100"]) initState = ([], false) ∧
     getActiveNodes (some ["n1:3100"]) initState = ([], false) ∧
     (getKnownNodes (some ["n1:3100"]) initState).1 =
       (getKnownNodes (some []) { initState with connected := true }).1 ∧
     (getActiveNodes (some ["n1:3100"]) initState).1 =
       (getActiveNodes (some []) { initState with connected := true }).1) :=
  ⟨rfl, disconnected_node_lists_empty initState (some ["n1:3100"]) rfl⟩

/-- Claim C2 (code evaluated at the failing input): a node that is
connected with no reconnect timer armed suffers a ping transport error;
the call returns failure and sets connected to false, but no reconnect
interval is started, because the source assigns connected = false before
testing `if (this.connected)` in the catch handler, contradicting the
adjacent comment about starting reconnection attempts. -/
theorem ping_error_skips_failure_handling :
    connectedIdleState.connected = true ∧
    connectedIdleState.reconnectActive = false ∧
    (pingSeedNode HttpResult.err 1 connectedIdleState).1 = false ∧
    (pingSeedNode HttpResult.err 1 connectedIdleState).2.connected = false ∧
    (pingSeedNode HttpResult.err 1 connectedIdleState).2.reconnectActive = false := by
  decide

/-- Counterexample to claim C1 as stated: ping succeeds (200) and the
seed node answers the registration with 409, yet connectToSeedNode
returns true (not failure), connected stays true and no reconnect
interval is armed. -/
theorem connect_registration_failure_counterexample :
    (connectToSeedNode (HttpResult.ok 200) (HttpResult.ok 409) 0 initState).1 = true ∧
    (connectToSeedNode (HttpResult.ok 200) (HttpResult.ok 409) 0
      initState).2.registrationStatus = RegistrationStatus.FAILED ∧
    (connectToSeedNode (HttpResult.ok 200) (HttpResult.ok 409) 0
      initState).2.connected = true ∧
    (connectToSeedNode (HttpResult.ok 200) (HttpResult.ok 409) 0
      initState).2.reconnectActive = false := by
  decide

/-- Claim C1 as amended: when the ping succeeds and the registration
fails (any non-201/200 status or a transport error), registrationStatus
does become FAILED, but connectToSeedNode ignores the registration
result and returns true; connected remains true (set by the successful
ping) and the reconnect fields are untouched, so no reconnect timer is
started. -/
theorem connect_ignores_registration_failure (rres : HttpResult)
    (now : Nat) (s : P2pState) (h : regFailure rres = true) :
    (connectToSeedNode (HttpResult.ok 200) rres now s).1 = true ∧
    (connectToSeedNode (HttpResult.ok 200) rres now s).2.registrationStatus
      = RegistrationStatus.FAILED ∧
    (connectToSeedNode (HttpResult.ok 200) rres now s).2.connected = true ∧
    (connectToSeedNode (HttpResult.ok 200) rres now s).2.reconnectActive
      = s.reconnectActive ∧
    (connectToSeedNode (HttpResult.ok 200) rres now s).2.reconnectAttempts
      = s.reconnectAttempts := by
  cases rres with
  | ok status =>
      simp only [regFailure, Bool.and_eq_true, decide_eq_true_eq] at h
      simp [connectToSeedNode, pingSeedNode, registerWithSeedNode, h.1, h.2]
  | err =>
      simp [connectToSeedNode, pingSeedNode, registerWithSeedNode]

/-- Witness for the amended C1 at status 409 from the initial state. -/
theorem connect_ignores_registration_failure_witness :
    regFailure (HttpResult.ok 409) = true ∧
    ((connectToSeedNode (HttpResult.ok 200) (HttpResult.ok 409) 3 initState).1 = true ∧
     (connectToSeedNode (HttpResult.ok 200) (HttpResult.ok 409) 3
       initState).2.registrationStatus = RegistrationStatus.FAILED ∧
     (connectToSeedNode (HttpResult.ok 200) (HttpResult.ok 409) 3
       initState).2.connected = true ∧
     (connectToSeedNode (HttpResult.ok 200) (HttpResult.ok 409) 3
       initState).2.reconnectActive = initState.reconnectActive ∧
     (connectToSeedNode (HttpResult.ok 200) (HttpResult.ok 409) 3
       initState).2.reconnectAttempts = initState.reconnectAttempts) :=
  ⟨by decide, connect_ignores_registration_failure (HttpResult.ok 409) 3 initState (by decide)⟩

/-- Every dispatch outcome carries the address of the peer it was sent
to. -/
theorem dispatchOne_address (env : String → DispatchResult) (now : Nat)
    (v : ValidatorNode) :
    (dispatchOne env now v).validatorAddress = v.address := by
  cases h : env v.address <;> simp [dispatchOne, h]

/-- A dispatch outcome is marked successful exactly when the network
delivered a successful response for that peer. -/
theorem dispatchOne_success (env : String → DispatchResult) (now : Nat)
    (v : ValidatorNode) :
    (dispatchOne env now v).success = dispatchOk (env v.address) := by
  cases h : env v.address <;> simp [dispatchOne, dispatchOk, h]

/-- Claim C3: broadcasting over a non-empty active-peer list yields
exactly one outcome per input peer, carrying that peer address, in the
input order, and the success count equals the number of successful
dispatches; the batch, critical, status and mempool broadcasts aggregate
identically. -/
theorem broadcast_one_outcome_per_peer (env : String → DispatchResult)
    (now : Nat) (s : VState) (h : getActiveValidatorNodes s ≠ []) :
    (sendTransaction env now s).length = (getActiveValidatorNodes s).length ∧
    (sendTransaction env now s).map (fun r => r.validatorAddress)
      = (getActiveValidatorNodes s).map (fun v => v.address) ∧
    (sendTransaction env now s).countP (fun r => r.success)
      = (getActiveValidatorNodes s).countP (fun v => dispatchOk (env v.address)) ∧
    sendBatchTransactions env now s = sendTransaction env now s ∧
    sendCriticalProcess env now s = sendTransaction env now s ∧
    getBlockchainStatus env now s = sendTransaction env now s ∧
    getMempoolStatus env now s = sendTransaction env now s := by
  have hl : ¬ (getActiveValidatorNodes s).length = 0 := by
    simpa [List.length_eq_zero] using h
  have hsend : sendTransaction env now s
      = (getActiveValidatorNodes s).map (dispatchOne env now) := by
    simp [sendTransaction, hl]
  refine ⟨?_, ?_, ?_, ?_, ?_, ?_, ?_⟩
  · simp [hsend]
  · simp [hsend, dispatchOne_address]
  · rw [hsend, List.countP_map]
    simp [Function.comp_def, dispatchOne_success]
  · rw [hsend]; simp [sendBatchTransactions, hl]
  · rw [hsend]; simp [sendCriticalProcess, hl]
  · rw [hsend]; simp [getBlockchainStatus, hl]
  · rw [hsend]; simp [getMempoolStatus, hl]

/-- Three responding validators A, B, C; the network times out on B and
answers A and C successfully. -/
def vstateABC : VState :=
  VState.mk
    [ { address := "A", nodeType := "validator", lastSeen := 0
      , isResponding := true, version := none }
    , { address := "B", nodeType := "validator", lastSeen := 0
      , isResponding := true, version := none }
    , { address := "C", nodeType := "validator", lastSeen := 0
      , isResponding := true, version := none } ]

/-- Network behavior in which the call to B times out and every other
call succeeds. -/
def envTimeoutB : String → DispatchResult :=
  fun a => if a = "B" then DispatchResult.timeout else DispatchResult.ok "ack"

/-- Witness for C3 on peers [A, B, C] with B timing out. -/
theorem broadcast_one_outcome_per_peer_witness :
    getActiveValidatorNodes vstateABC ≠ [] ∧
    ((sendTransaction envTimeoutB 4 vstateABC).length
       = (getActiveValidatorNodes vstateABC).length ∧
     (sendTransaction envTimeoutB 4 vstateABC).map (fun r => r.validatorAddress)
       = (getActiveValidatorNodes vstateABC).map (fun v => v.address) ∧
     (sendTransaction envTimeoutB 4 vstateABC).countP (fun r => r.success)
       = (getActiveValidatorNodes vstateABC).countP
           (fun v => dispatchOk (envTimeoutB v.address)) ∧
     sendBatchTransactions envTimeoutB 4 vstateABC
       = sendTransaction envTimeoutB 4 vstateABC ∧
     sendCriticalProcess envTimeoutB 4 vstateABC
       = sendTransaction envTimeoutB 4 vstateABC ∧
     getBlockchainStatus envTimeoutB 4 vstateABC
       = sendTransaction envTimeoutB 4 vstateABC ∧
     getMempoolStatus envTimeoutB 4 vstateABC
       = sendTransaction envTimeoutB 4 vstateABC) :=
  ⟨by decide, broadcast_one_outcome_per_peer envTimeoutB 4 vstateABC (by decide)⟩

/-- The updated record at index i of a health sweep is the health-check
image of the old record at index i. -/
theorem healthCheck_getD (probe : String → Bool) (now : Nat) (s : VState)
    (i : Nat) (h : i < s.validatorNodes.length) :
    (checkValidatorNodesHealth probe now s).validatorNodes.getD i defaultNode
      = healthCheckOne probe now (s.validatorNodes.getD i defaultNode) := by
  have h1 : s.validatorNodes[i]? = some (s.validatorNodes.get ⟨i, h⟩) := by
    simp [List.getElem?_eq_getElem h]
  simp [checkValidatorNodesHealth, List.getD_eq_getElem?_getD,
        List.getElem?_map, h1]

/-- Claim C7: a health sweep preserves the number of records and, at each
index, the address, node type and version; a failing probe sets
isResponding to false and leaves lastSeen unchanged, a successful probe
sets isResponding to true and refreshes lastSeen to the current time. -/
theorem health_sweep_per_peer (probe : String → Bool) (now : Nat)
    (s : VState) (i : Nat) (h : i < s.validatorNodes.length) :
    (checkValidatorNodesHealth probe now s).validatorNodes.length
      = s.validatorNodes.length ∧
    ((checkValidatorNodesHealth probe now s).validatorNodes.getD i
        defaultNode).address
      = (s.validatorNodes.getD i defaultNode).address ∧
    ((checkValidatorNodesHealth probe now s).validatorNodes.getD i
        defaultNode).nodeType
      = (s.validatorNodes.getD i defaultNode).nodeType ∧
    ((checkValidatorNodesHealth probe now s).validatorNodes.getD i
        defaultNode).version
      = (s.validatorNodes.getD i defaultNode).version ∧
    (probe (s.validatorNodes.getD i defaultNode).address = false →
      ((checkValidatorNodesHealth probe now s).validatorNodes.getD i
          defaultNode).isResponding = false ∧
      ((checkValidatorNodesHealth probe now s).validatorNodes.getD i
          defaultNode).lastSeen
        = (s.validatorNodes.getD i defaultNode).lastSeen) ∧
    (probe (s.validatorNodes.getD i defaultNode).address = true →
      ((checkValidatorNodesHealth probe now s).validatorNodes.getD i
          defaultNode).isResponding = true ∧
      ((checkValidatorNodesHealth probe now s).validatorNodes.getD i
          defaultNode).lastSeen = now) := by
  rw [healthCheck_getD probe now s i h]
  generalize s.validatorNodes.getD i defaultNode = old
  refine ⟨by simp [checkValidatorNodesHealth], ?_, ?_, ?_, ?_, ?_⟩ <;>
    by_cases hp : probe old.address <;> simp [healthCheckOne, hp]

/-- Network behavior for the health-sweep scenario: the probe of B times
out, A and C answer. -/
def probeBDown : String → Bool :=
  fun a => if a = "B" then false else true

/-- Directory for the health-sweep scenario: A, B, C all currently
responding with lastSeen 10. -/
def vstateSweep : VState :=
  VState.mk
    [ { address := "A", nodeType := "validator", lastSeen := 10
      , isResponding := true, version := none }
    , { address := "B", nodeType := "validator", lastSeen := 10
      , isResponding := true, version := none }
    , { address := "C", nodeType := "validator", lastSeen := 10
      , isResponding := true, version := none } ]

/-- Witness for C7 at the peer whose probe fails (index 1 of three). -/
theorem health_sweep_per_peer_witness :
    1 < vstateSweep.validatorNodes.length ∧
    ((checkValidatorNodesHealth probeBDown 42 vstateSweep).validatorNodes.length
       = vstateSweep.validatorNodes.length ∧
     ((checkValidatorNodesHealth probeBDown 42 vstateSweep).validatorNodes.getD 1
         defaultNode).address
       = (vstateSweep.validatorNodes.getD 1 defaultNode).address ∧
     ((checkValidatorNodesHealth probeBDown 42 vstateSweep).validatorNodes.getD 1
         defaultNode).nodeType
       = (vstateSweep.validatorNodes.getD 1 defaultNode).nodeType ∧
     ((checkValidatorNodesHealth probeBDown 42 vstateSweep).validatorNodes.getD 1
         defaultNode).version
       = (vstateSweep.validatorNodes.getD 1 defaultNode).version ∧
     (probeBDown (vstateSweep.validatorNodes.getD 1 defaultNode).address = false →
       ((checkValidatorNodesHealth probeBDown 42 vstateSweep).validatorNodes.getD 1
           defaultNode).isResponding = false ∧
       ((checkValidatorNodesHealth probeBDown 42 vstateSweep).validatorNodes.getD 1
           defaultNode).lastSeen
         = (vstateSweep.validatorNodes.getD 1 defaultNode).lastSeen) ∧
     (probeBDown (vstateSweep.validatorNodes.getD 1 defaultNode).address = true →
       ((checkValidatorNodesHealth probeBDown 42 vstateSweep).validatorNodes.getD 1
           defaultNode).isResponding = true ∧
       ((checkValidatorNodesHealth probeBDown 42 vstateSweep).validatorNodes.getD 1
           defaultNode).lastSeen = 42)) :=
  ⟨by decide, health_sweep_per_peer probeBDown 42 vstateSweep 1 (by decide)⟩

/-- Frame lemma: a ping never touches the reconnect counter or the
reconnect interval (including its catch branch, whose
handleConnectionFailure call is unreachable). -/
theorem pingSeedNode_reconnect_frame (res : HttpResult) (now : Nat)
    (s : P2pState) :
    ((pingSeedNode res now s).2.reconnectAttempts = s.reconnectAttempts) ∧
    ((pingSeedNode res now s).2.reconnectActive = s.reconnectActive) := by
  cases res with
  | ok status => by_cases h : status = 200 <;> simp [pingSeedNode, h]
  | err => simp [pingSeedNode]

/-- Frame lemma: registration only writes registrationStatus. -/
theorem registerWithSeedNode_frame (res : HttpResult) (s : P2pState) :
    ((registerWithSeedNode res s).2.reconnectAttempts = s.reconnectAttempts) ∧
    ((registerWithSeedNode res s).2.reconnectActive = s.reconnectActive) ∧
    ((registerWithSeedNode res s).2.connected = s.connected) := by
  cases res with
  | ok status =>
      by_cases h1 : status = 201 <;> by_cases h2 : status = 200 <;>
        simp [registerWithSeedNode, h1, h2]
  | err => simp [registerWithSeedNode]

/-- handleConnectionFailure disconnects, arms the reconnect interval and
leaves the attempt counter alone. -/
theorem handleConnectionFailure_spec (s : P2pState) :
    (handleConnectionFailure s).reconnectAttempts = s.reconnectAttempts ∧
    (handleConnectionFailure s).reconnectActive = true ∧
    (handleConnectionFailure s).connected = false := by
  by_cases h : s.reconnectActive <;>
    simp [handleConnectionFailure, startReconnectInterval, h]

/-- connectToSeedNode never changes the reconnect attempt counter. -/
theorem connectToSeedNode_attempts (p r : HttpResult) (now : Nat)
    (s : P2pState) :
    (connectToSeedNode p r now s).2.reconnectAttempts
      = s.reconnectAttempts := by
  unfold connectToSeedNode
  by_cases h : (pingSeedNode p now s).1 = false <;>
    simp [h, (handleConnectionFailure_spec _).1,
          (registerWithSeedNode_frame r _).1,
          (pingSeedNode_reconnect_frame p now s).1]

/-- While the reconnect interval is armed, connectToSeedNode leaves it
armed. -/
theorem connectToSeedNode_active_true (p r : HttpResult) (now : Nat)
    (s : P2pState) (h : s.reconnectActive = true) :
    (connectToSeedNode p r now s).2.reconnectActive = true := by
  unfold connectToSeedNode
  by_cases hp : (pingSeedNode p now s).1 = false
  · simp [hp, (handleConnectionFailure_spec _).2.1]
  · have hreg := (registerWithSeedNode_frame r (pingSeedNode p now s).2).2.1
    have hping := (pingSeedNode_reconnect_frame p now s).2
    simp [hp, hreg, hping, h]

/-- If the reconnect interval is disarmed after connectToSeedNode, it was
already disarmed before. -/
theorem connectToSeedNode_active_false (p r : HttpResult) (now : Nat)
    (s : P2pState)
    (h : (connectToSeedNode p r now s).2.reconnectActive = false) :
    s.reconnectActive = false := by
  by_cases hs : s.reconnectActive = true
  · rw [connectToSeedNode_active_true p r now s hs] at h
    exact absurd h (by simp)
  · simpa using hs

/-- A reconnect tick that sees a ping transport error increments the
counter, records the failed connect attempt and keeps the interval
armed. -/
theorem failing_tick_eq (N : Nat) (s : P2pState)
    (hA : s.reconnectActive = true) (hlt : s.reconnectAttempts < N) :
    reconnectTick N HttpResult.err HttpResult.err 0 s
      = ({ s with
            reconnectAttempts := s.reconnectAttempts + 1,
            connected := false }, true) := by
  have h2 : ¬ (N ≤ s.reconnectAttempts) := by omega
  simp [reconnectTick, connectToSeedNode, pingSeedNode,
        handleConnectionFailure, startReconnectInterval, hA, h2]

/-- Iterated failing ticks keep the interval armed and advance the
counter by exactly the number of ticks, as long as the maximum is not
exceeded. -/
theorem failTicks_attempts (N : Nat) :
    ∀ (k : Nat) (s : P2pState), s.reconnectActive = true →
      s.reconnectAttempts + k ≤ N →
      (failTicks N k s).reconnectActive = true ∧
      (failTicks N k s).reconnectAttempts = s.reconnectAttempts + k := by
  intro k
  induction k with
  | zero => intro s hA hle; simp [failTicks, hA]
  | succ n ih =>
      intro s hA hle
      have hlt : s.reconnectAttempts < N := by omega
      have hA2 : ({ s with
          reconnectAttempts := s.reconnectAttempts + 1,
          connected := false } : P2pState).reconnectActive = true := hA
      have hle2 : ({ s with
          reconnectAttempts := s.reconnectAttempts + 1,
          connected := false } : P2pState).reconnectAttempts + n ≤ N := by
        show s.reconnectAttempts + 1 + n ≤ N
        omega
      have hres := ih
        { s with
          reconnectAttempts := s.reconnectAttempts + 1,
          connected := false } hA2 hle2
      have hunfold : failTicks N (n + 1) s
          = failTicks N n (reconnectTick N HttpResult.err HttpResult.err 0 s).1 :=
        rfl
      rw [hunfold, failing_tick_eq N s hA hlt]
      refine ⟨hres.1, ?_⟩
      rw [hres.2]
      show s.reconnectAttempts + 1 + n = s.reconnectAttempts + (n + 1)
      omega

/-- Claim C4: from an armed reconnect interval with a zeroed counter, N
consecutive failing ticks drive the counter to N with the interval still
armed; the next tick makes no connection attempt and disarms the
interval, and the tick after that is a complete no-op - no further
attempts occur until a new failure re-arms the interval. -/
theorem reconnect_timer_stops_after_max (N : Nat) (s : P2pState)
    (hA : s.reconnectActive = true) (h0 : s.reconnectAttempts = 0)
    (pres rres : HttpResult) (now : Nat) :
    (failTicks N N s).reconnectActive = true ∧
    (failTicks N N s).reconnectAttempts = N ∧
    (reconnectTick N pres rres now (failTicks N N s)).2 = false ∧
    (reconnectTick N pres rres now (failTicks N N s)).1.reconnectActive
      = false ∧
    reconnectTick N pres rres now
        (reconnectTick N pres rres now (failTicks N N s)).1
      = ((reconnectTick N pres rres now (failTicks N N s)).1, false) := by
  have hft := failTicks_attempts N N s hA (by omega)
  have hcount : (failTicks N N s).reconnectAttempts = N := by
    rw [hft.2, h0]
    omega
  have hstop : reconnectTick N pres rres now (failTicks N N s)
      = ({ failTicks N N s with reconnectActive := false }, false) := by
    simp [reconnectTick, hft.1, hcount]
  refine ⟨hft.1, hcount, ?_, ?_, ?_⟩
  · rw [hstop]
  · rw [hstop]
  · rw [hstop]
    simp [reconnectTick]

/-- A state with the reconnect interval freshly armed and the counter at
zero, as produced by the first connection failure. -/
def armedState : P2pState :=
  { connected := false
  , registrationStatus := RegistrationStatus.NOT_REGISTERED
  , lastPingTime := none
  , reconnectAttempts := 0
  , reconnectActive := true }

/-- Witness for C4 with maxReconnectAttempts = 2 and a network that keeps
refusing the ping. -/
theorem reconnect_timer_stops_after_max_witness :
    armedState.reconnectActive = true ∧
    armedState.reconnectAttempts = 0 ∧
    ((failTicks 2 2 armedState).reconnectActive = true ∧
     (failTicks 2 2 armedState).reconnectAttempts = 2 ∧
     (reconnectTick 2 HttpResult.err HttpResult.err 0
        (failTicks 2 2 armedState)).2 = false ∧
     (reconnectTick 2 HttpResult.err HttpResult.err 0
        (failTicks 2 2 armedState)).1.reconnectActive = false ∧
     reconnectTick 2 HttpResult.err HttpResult.err 0
         (reconnectTick 2 HttpResult.err HttpResult.err 0
           (failTicks 2 2 armedState)).1
       = ((reconnectTick 2 HttpResult.err HttpResult.err 0
            (failTicks 2 2 armedState)).1, false)) :=
  ⟨rfl, rfl, reconnect_timer_stops_after_max 2 armedState rfl rfl
      HttpResult.err HttpResult.err 0⟩

/-- Event history that exhausts the reconnect budget with
maxReconnectAttempts = 2: the startup connect fails and arms the
interval, two ticks fail, the third tick hits the cap and disarms. -/
def exhaustEvents : List P2pEvent :=
  [ P2pEvent.connectEv HttpResult.err HttpResult.err 0
  , P2pEvent.reconnectEv HttpResult.err HttpResult.err 0
  , P2pEvent.reconnectEv HttpResult.err HttpResult.err 0
  , P2pEvent.reconnectEv HttpResult.err HttpResult.err 0 ]

/-- Counterexample to claim C6 as stated: after the reconnect budget is
exhausted the interval is disarmed, yet reconnectAttempts is 2, not 0 -
so the counter is not reset whenever reconnection is not in progress. -/
theorem reconnect_attempts_nonzero_when_idle :
    Reachable 2 (runEvents 2 exhaustEvents) ∧
    (runEvents 2 exhaustEvents).reconnectActive = false ∧
    (runEvents 2 exhaustEvents).reconnectAttempts = 2 :=
  ⟨⟨exhaustEvents, rfl⟩, by decide, by decide⟩

/-- One event preserves the amended counter invariant. -/
theorem reconnInv_step (maxR : Nat) (e : P2pEvent) (s : P2pState)
    (h1 : s.reconnectAttempts ≤ maxR)
    (h2 : s.reconnectActive = false →
      s.reconnectAttempts = 0 ∨ s.reconnectAttempts = maxR) :
    (stepEvent maxR e s).reconnectAttempts ≤ maxR ∧
    ((stepEvent maxR e s).reconnectActive = false →
      (stepEvent maxR e s).reconnectAttempts = 0 ∨
      (stepEvent maxR e s).reconnectAttempts = maxR) := by
  cases e with
  | pingTickEv res now =>
      have hf := pingSeedNode_reconnect_frame res now s
      simp only [stepEvent]
      rw [hf.1, hf.2]
      exact ⟨h1, h2⟩
  | connectEv p r now =>
      simp only [stepEvent]
      rw [connectToSeedNode_attempts p r now s]
      exact ⟨h1, fun hoff => h2 (connectToSeedNode_active_false p r now s hoff)⟩
  | reconnectEv p r now =>
      simp only [stepEvent]
      obtain ⟨c, rs, lp, ra, ract⟩ := s
      cases ract with
      | false =>
          have ht : (reconnectTick maxR p r now
              (P2pState.mk c rs lp ra false)).1
              = P2pState.mk c rs lp ra false := by
            simp [reconnectTick]
          rw [ht]
          exact ⟨h1, h2⟩
      | true =>
          have h1a : ra ≤ maxR := h1
          by_cases hm : maxR ≤ ra
          · have ht : (reconnectTick maxR p r now
                (P2pState.mk c rs lp ra true)).1
                = P2pState.mk c rs lp ra false := by
              simp [reconnectTick, hm]
            rw [ht]
            refine ⟨h1, fun _ => Or.inr ?_⟩
            show ra = maxR
            omega
          · have hs1A : (P2pState.mk c rs lp (ra + 1) true).reconnectActive
                = true := rfl
            have hs2att := connectToSeedNode_attempts p r now
              (P2pState.mk c rs lp (ra + 1) true)
            have hs2act := connectToSeedNode_active_true p r now
              (P2pState.mk c rs lp (ra + 1) true) hs1A
            by_cases hc : (connectToSeedNode p r now
                (P2pState.mk c rs lp (ra + 1) true)).2.connected = true
            · have ht : (reconnectTick maxR p r now
                  (P2pState.mk c rs lp ra true)).1
                  = { (connectToSeedNode p r now
                        (P2pState.mk c rs lp (ra + 1) true)).2 with
                      reconnectActive := false, reconnectAttempts := 0 } := by
                simp [reconnectTick, hm, hc]
              rw [ht]
              exact ⟨Nat.zero_le _, fun _ => Or.inl rfl⟩
            · have ht : (reconnectTick maxR p r now
                  (P2pState.mk c rs lp ra true)).1
                  = (connectToSeedNode p r now
                      (P2pState.mk c rs lp (ra + 1) true)).2 := by
                simp [reconnectTick, hm, hc]
              rw [ht]
              constructor
              · rw [hs2att]
                show ra + 1 ≤ maxR
                omega
              · intro hoff
                rw [hs2act] at hoff
                exact absurd hoff (by simp)

/-- The amended counter invariant holds along every event history. -/
theorem reconnInv_foldl (maxR : Nat) (evs : List P2pEvent) :
    ∀ s : P2pState, s.reconnectAttempts ≤ maxR →
      (s.reconnectActive = false →
        s.reconnectAttempts = 0 ∨ s.reconnectAttempts = maxR) →
      ((evs.foldl (fun t e => stepEvent maxR e t) s).reconnectAttempts ≤ maxR ∧
       ((evs.foldl (fun t e => stepEvent maxR e t) s).reconnectActive = false →
         (evs.foldl (fun t e => stepEvent maxR e t) s).reconnectAttempts = 0 ∨
         (evs.foldl (fun t e => stepEvent maxR e t) s).reconnectAttempts = maxR)) := by
  induction evs with
  | nil => intro s h1 h2; exact ⟨h1, h2⟩
  | cons e evs ih =>
      intro s h1 h2
      have hs := reconnInv_step maxR e s h1 h2
      simpa [List.foldl_cons] using ih (stepEvent maxR e s) hs.1 hs.2

/-- While the reconnect interval is disarmed, no event changes the
attempt counter. -/
theorem stepEvent_attempts_frame (maxR : Nat) (e : P2pEvent) (s : P2pState)
    (h : s.reconnectActive = false) :
    (stepEvent maxR e s).reconnectAttempts = s.reconnectAttempts := by
  cases e with
  | pingTickEv res now => exact (pingSeedNode_reconnect_frame res now s).1
  | reconnectEv p r now =>
      have ht : (reconnectTick maxR p r now s).1 = s := by
        simp [reconnectTick, h]
      simp only [stepEvent]
      rw [ht]
  | connectEv p r now => exact connectToSeedNode_attempts p r now s

/-- Claim C6 as amended: in every reachable state the counter is at most
maxReconnectAttempts; while no reconnect interval is armed it is either 0
(initially, or after a successful reconnect) or exactly
maxReconnectAttempts (after the interval stopped itself at the cap - the
source does not reset it there); and no event changes the counter while
the interval is disarmed, so it only increments during reconnect
ticks. -/
theorem reconnect_attempts_invariant (maxR : Nat) (s : P2pState)
    (e : P2pEvent) (h : Reachable maxR s) :
    s.reconnectAttempts ≤ maxR ∧
    (s.reconnectActive = false →
      s.reconnectAttempts = 0 ∨ s.reconnectAttempts = maxR) ∧
    (s.reconnectActive = false →
      (stepEvent maxR e s).reconnectAttempts = s.reconnectAttempts) := by
  obtain ⟨evs, rfl⟩ := h
  have hinv := reconnInv_foldl maxR evs initState (Nat.zero_le _)
    (fun _ => Or.inl rfl)
  exact ⟨hinv.1, hinv.2, fun hoff => stepEvent_attempts_frame maxR e _ hoff⟩

/-- Witness for the amended C6 at the initial state. -/
theorem reconnect_attempts_invariant_witness :
    Reachable 2 initState ∧
    (initState.reconnectAttempts ≤ 2 ∧
     (initState.reconnectActive = false →
       initState.reconnectAttempts = 0 ∨ initState.reconnectAttempts = 2) ∧
     (initState.reconnectActive = false →
       (stepEvent 2 (P2pEvent.reconnectEv HttpResult.err HttpResult.err 0)
          initState).reconnectAttempts = initState.reconnectAttempts)) :=
  ⟨⟨[], rfl⟩, reconnect_attempts_invariant 2 initState
      (P2pEvent.reconnectEv HttpResult.err HttpResult.err 0) ⟨[], rfl⟩⟩
